import Mathlib

/-!
Shallow embedding of `scripts/generate_latest.py` (us-daily-dashboard).

Python floats are modelled as `ℚ`; `Optional[float]` as `Option ℚ`.
External libraries (`requests`, `feedparser`, `bs4`, `finance_calendars`,
`datetime`) are modelled as an explicit environment (`Env`, below): the
environment holds the raw response of each network call, and the Lean
definitions reproduce the script's own processing of those responses.
-/

namespace GenLatest

/-! ### String helpers

Core `String` functions (`splitOn`, `trim`, `toNat?`, …) are defined by
well-founded recursion over byte positions, which the kernel cannot unfold;
we use structurally recursive equivalents over `List Char` so that concrete
runs of the embedded program can be evaluated inside proofs. -/

/-- Auxiliary splitter: accumulates the current field (reversed). -/
def splitOnCharAux (c : Char) : List Char → List Char → List (List Char)
  | [], acc => [acc.reverse]
  | x :: xs, acc =>
    if x = c then acc.reverse :: splitOnCharAux c xs []
    else splitOnCharAux c xs (x :: acc)

/-- Python `s.split(c)` for a one-character separator `c` (the script only
splits on `","` and `"."`): `"a,,b" ↦ ["a","","b"]`, `"" ↦ [""]`. -/
def splitOnChar (c : Char) (s : String) : List String :=
  (splitOnCharAux c s.toList []).map String.mk

/-- ASCII whitespace, as found in these CSV/ICS feeds. -/
def isWS (c : Char) : Bool := c = ' ' || c = '\t' || c = '\n' || c = '\r'

/-- Python `str.strip()` (trim leading/trailing whitespace). -/
def pyStrip (s : String) : String :=
  String.mk (((s.toList.dropWhile isWS).reverse.dropWhile isWS).reverse)

/-- Value of a decimal digit character (`0` for non-digits; only applied to
digit characters). -/
def digitVal : Char → ℕ
  | '0' => 0 | '1' => 1 | '2' => 2 | '3' => 3 | '4' => 4
  | '5' => 5 | '6' => 6 | '7' => 7 | '8' => 8 | '9' => 9
  | _ => 0

/-- Parse a non-empty all-digit character list as a natural number. -/
def digitsToNat? (l : List Char) : Option ℕ :=
  if !l.isEmpty && l.all Char.isDigit then
    some (l.foldl (fun a c => a * 10 + digitVal c) 0)
  else none

/-- Python slice `l[-n:]`: the last `n` elements when `n > 0`; for `n = 0`
the slice `l[-0:] = l[0:]` is the whole list. -/
def pySliceLastN (n : ℕ) (l : List α) : List α :=
  if n = 0 then l else l.drop (l.length - n)

/-- Model of Python `float(s)` restricted to the decimal literals these CSV
sources emit (optional sign, digits, optional fractional part); any other
string raises in Python, i.e. yields `none` here.  This is the body of
`safe_float`: `try: return float(x) except: return None`. -/
def safe_float (s : String) : Option ℚ :=
  let t := (pyStrip s).toList
  let sign : ℚ := if t.take 1 = ['-'] then -1 else 1
  let u := if t.take 1 = ['-'] || t.take 1 = ['+'] then t.drop 1 else t
  match splitOnCharAux '.' u [] with
  | [ip] => (digitsToNat? ip).map (fun n => sign * (n : ℚ))
  | [ip, fp] =>
      if ip.isEmpty && fp.isEmpty then none
      else
        let ipv : Option ℕ := if ip.isEmpty then some 0 else digitsToNat? ip
        let fpv : Option ℕ := if fp.isEmpty then some 0 else digitsToNat? fp
        match ipv, fpv with
        | some i, some f =>
            some (sign * ((i : ℚ) + (f : ℚ) / (10 : ℚ) ^ fp.length))
        | _, _ => none
  | _ => none

/-- Model of `pct_change(last, prev)` from the script:
`if last is None or prev is None or prev == 0: return 0.0` then
`(last / prev - 1.0) * 100.0`. -/
def pct_change (last prev : Option ℚ) : ℚ :=
  match last, prev with
  | some l, some p => if p = 0 then 0 else (l / p - 1) * 100
  | _, _ => 0

/-- Python `last_prev(arr)`: `(arr[-1], arr[-2])` when `len(arr) ≥ 2`, else
`(None, None)`. -/
def last_prev (arr : List ℚ) : Option ℚ × Option ℚ :=
  if arr.length < 2 then (none, none)
  else (arr.getLast?, arr.dropLast.getLast?)

/-- Python truthiness of an `Optional[float]`: `None` and `0.0` are falsy. -/
def pyTruthy : Option ℚ → Bool
  | none => false
  | some v => v != 0

/-- Rounding used to model Python's `round(x, 2)` and the `.2f`/`.0f` format
specs: round to nearest (ties modelled as half-up; the sources' values do not
sit on ties). -/
def round2 (q : ℚ) : ℚ := (round (q * 100) : ℤ) / 100

/-- Insert a `,` before every position that is a nonzero multiple of three
(list given least-significant digit first). -/
def commaRevAux : List Char → ℕ → List Char
  | [], _ => []
  | c :: rest, i =>
    if i ≠ 0 && i % 3 == 0 then ',' :: c :: commaRevAux rest (i + 1)
    else c :: commaRevAux rest (i + 1)

/-- Digits of a natural number grouped in threes with `,`, digits given
least-significant first. -/
def commaRev (l : List Char) : List Char := commaRevAux l 0

/-- Two-digit zero-padded rendering of `n < 100`. -/
def twoDigits (n : ℕ) : String :=
  (if n < 10 then "0" else "") ++ toString n

/-- Model of the Python format spec `:,.2f` (thousands separators, two
decimal places). -/
def fmtComma2 (q : ℚ) : String :=
  let n : ℤ := round (q * 100)
  let sign := if n < 0 then "-" else ""
  let m := n.natAbs
  sign ++ String.mk (commaRev (toString (m / 100)).toList.reverse).reverse
       ++ "." ++ twoDigits (m % 100)

/-- Model of the Python format spec `:.2f`. -/
def fmt2 (q : ℚ) : String :=
  let n : ℤ := round (q * 100)
  let sign := if n < 0 then "-" else ""
  let m := n.natAbs
  sign ++ toString (m / 100) ++ "." ++ twoDigits (m % 100)

/-- Model of the Python format spec `:+.2f` (explicit sign, two decimals). -/
def fmtSigned2 (q : ℚ) : String :=
  let n : ℤ := round (q * 100)
  (if n < 0 then "-" else "+") ++
    toString (n.natAbs / 100) ++ "." ++ twoDigits (n.natAbs % 100)

/-- Model of the Python format spec `:+.0f` (explicit sign, no decimals). -/
def fmtSigned0 (q : ℚ) : String :=
  let n : ℤ := round q
  (if n < 0 then "-" else "+") ++ toString n.natAbs

/-- Errors an adapter call can raise: `requests` timeout / connection error,
`r.raise_for_status()` on an HTTP error status, or a parse error
(`ValueError` from tuple unpacking in `fetch_fred_dgs10`). -/
inductive SourceError where
  | network
  | httpStatus
  | parse
deriving DecidableEq, Repr

/-- One row of the Stooq CSV body (`fetch_stooq_close_series` loop body):
split on `,`, skip rows with fewer than 5 fields, take `parts[0].strip()` as
the date and `safe_float(parts[4])` as the close, skipping unparseable
closes. -/
def stooqRow (line : String) : Option (String × ℚ) :=
  let parts := splitOnChar ',' line
  if parts.length < 5 then none
  else
    match safe_float (parts.getD 4 "") with
    | none => none
    | some close => some (pyStrip (parts.getD 0 ""), close)

/-- All valid parsed rows of a Stooq response (`lines[1:]`, in response
order — the script performs no sort). -/
def stooqRows (lines : List String) : List (String × ℚ) :=
  (lines.drop 1).filterMap stooqRow

/-- Pure part of `fetch_stooq_close_series`: given the response body's lines
(`r.text.strip().splitlines()`), return `(labels, closes)`.  Fewer than 3
lines gives `([], [])`; otherwise the valid rows are trimmed with
`rows[-limit:]` and unzipped. -/
def fetch_stooq_parse (lines : List String) (limit : ℕ) : List String × List ℚ :=
  if lines.length < 3 then ([], [])
  else
    let rows := pySliceLastN limit (stooqRows lines)
    (rows.map Prod.fst, rows.map Prod.snd)

/-- One row of the FRED CSV body: `d, v = line.split(",")` raises `ValueError`
unless the line has exactly two fields; `safe_float(v) = None` skips the
row. -/
def fredRow (line : String) : Except SourceError (Option (String × ℚ)) :=
  match splitOnChar ',' line with
  | [d, v] => .ok ((safe_float v).map (fun val => (pyStrip d, val)))
  | _ => .error .parse

/-- All valid parsed rows of a FRED response (`lines[1:]`, response order;
a malformed line aborts the whole call with the uncaught `ValueError`). -/
def fredRowsE (lines : List String) : Except SourceError (List (String × ℚ)) :=
  ((lines.drop 1).mapM fredRow).map List.reduceOption

/-- Pure part of `fetch_fred_dgs10`: parse, trim with `rows[-limit:]`,
unzip. -/
def fetch_fred_parse (lines : List String) (limit : ℕ) :
    Except SourceError (List String × List ℚ) :=
  (fredRowsE lines).map (fun rows =>
    let rows := pySliceLastN limit rows
    (rows.map Prod.fst, rows.map Prod.snd))

/-- Lookup in the dict built by `{d: v for d, v in zip(labels, values)}`:
a later pair with the same key overwrites an earlier one. -/
def pyDictGet (pairs : List (String × α)) (d : String) : Option α :=
  match pairs with
  | [] => none
  | (k, v) :: rest =>
      match pyDictGet rest d with
      | some w => some w
      | none => if k = d then some v else none

/-- Series alignment as done in `main`: `[m.get(d) for d in labels]` where
`m` is the zip dict of the series. -/
def alignSeries (axis : List String) (pairs : List (String × ℚ)) :
    List (Option ℚ) :=
  axis.map (pyDictGet pairs)

/-- The `mood` record (`value`, `reason`). -/
structure MoodRec where
  value : String
  reason : String
deriving DecidableEq, Repr

/-- The `action` record (`value`, `note`, `beginnerMemo`). -/
structure ActionRec where
  value : String
  note : String
  beginnerMemo : String
deriving DecidableEq, Repr

def moodGood : MoodRec := { value := "좋음", reason := "지수 강세 + 변동성 낮은 편" }
def actionBuy : ActionRec :=
  { value := "매수(조금)", note := "분할/소액 중심"
    beginnerMemo := "급할수록 분할. 한 번에 올인 금지." }
def moodBad : MoodRec := { value := "나쁨", reason := "지수 약세 + 변동성 상승" }
def actionHoldBad : ActionRec :=
  { value := "관망", note := "리스크 관리 우선"
    beginnerMemo := "손실 줄이는 날이 진짜 수익." }
def moodNeutral : MoodRec := { value := "애매", reason := "방향성 약함(보합/혼조)" }
def actionHoldNeutral : ActionRec :=
  { value := "관망", note := "확실한 구간까지 기다리기"
    beginnerMemo := "관망도 전략. 애매하면 쉬는 게 이김." }

/-- Condition `vix_val is None or vix_val < 18`. -/
def vixLow : Option ℚ → Bool
  | none => true
  | some v => decide (v < 18)

/-- Condition `vix_val is not None and vix_val > 20`. -/
def vixHigh : Option ℚ → Bool
  | none => false
  | some v => decide (v > 20)

/-- The mood/action rule (`main`, "Mood/Action simple rule"). -/
def moodAction (spx_chg : ℚ) (vix_val : Option ℚ) : MoodRec × ActionRec :=
  if spx_chg > 1/2 && vixLow vix_val then (moodGood, actionBuy)
  else if spx_chg < -(1/2) && vixHigh vix_val then (moodBad, actionHoldBad)
  else (moodNeutral, actionHoldNeutral)

/-! ### Configuration tables (module-level constants of the script) -/

def MY_TICKERS : List String :=
  ["NE", "RXRX", "BLDP", "BMNR", "NVDA", "TSLA", "AI", "GGLL", "QQQM", "VRTL",
   "CEVA", "CCS"]

def KO_NAME : List (String × String) :=
  [("NE", "노블 코퍼레이션"), ("RXRX", "리커전 파마"), ("BLDP", "발라드 파워"),
   ("BMNR", "비트마인드(가칭)"), ("NVDA", "엔비디아"), ("TSLA", "테슬라"),
   ("AI", "C3.ai"), ("GGLL", "그래닛셰어즈 2x 롱 NVDA(ETF)"),
   ("QQQM", "인베스코 나스닥100 미니(ETF)"), ("VRTL", "버추얼트…(가칭)"),
   ("CEVA", "세바"), ("CCS", "센추리 커뮤니티즈")]

def SECTOR_ETFS : List (String × String) :=
  [("XLK", "기술"), ("XLF", "금융"), ("XLY", "경기소비재"), ("XLP", "필수소비재"),
   ("XLE", "에너지"), ("XLV", "헬스케어"), ("XLI", "산업재"), ("XLB", "소재"),
   ("XLU", "유틸리티"), ("XLRE", "부동산"), ("XLC", "커뮤니케이션")]

/-- Lookup `KO_NAME.get(sym, "")` (keys are distinct, so first match = dict get). -/
def koNameGet (sym : String) : String :=
  ((KO_NAME.find? (fun p => p.1 == sym)).map Prod.snd).getD ""

/-- Python `str.upper()` (ASCII). -/
def strUpper (s : String) : String := String.mk (s.toList.map Char.toUpper)

/-- Python `str.lower()` (ASCII). -/
def strLower (s : String) : String := String.mk (s.toList.map Char.toLower)

/-! ### Records appearing in the snapshot -/

/-- A news item as built by `google_news_rss` (fields of the dict at
lines 134–139).  The extraction of `title`/`why`/`source` from a feedparser
entry is external-library work; the environment supplies items in this
shape and the embedding reproduces the script's own de-duplication and
truncation. -/
structure FeedItem where
  title : String
  why : String
  source : String
  star : Bool
deriving DecidableEq, Repr

/-- A schedule event (`{"time": …, "title": …, "note": …}`). -/
structure EventRec where
  time : String
  title : String
  note : String
deriving DecidableEq, Repr

/-- An earnings-calendar row after the script's field extraction
(`r.get("symbol")…`, `r.get("name")…`, `r.get("time")…`); rows that are not
dicts are dropped before this point. -/
structure EarnRow where
  symbol : String
  name : String
  timing : String
deriving DecidableEq, Repr

/-- An entry of the `upcoming` earnings list (dict at lines 303–308). -/
structure EarnItem where
  when : String
  symbol : String
  name : String
  note : String
deriving DecidableEq, Repr

/-- A KPI entry (`overnight_kpis` / `macro_kpis`). -/
structure KpiRec where
  icon : String
  label : String
  valueText : String
  desc : String
  changePct : ℚ
deriving DecidableEq, Repr

/-- An entry of `mystocks`. -/
structure StockRec where
  symbol : String
  name : String
  koName : String
  last : String
  changePct : ℚ
  priceText : String
  news : String
  nextEvent : String
  memo : String
deriving DecidableEq, Repr

/-- An entry of `sectors` (before the payload strips `symbol`). -/
structure SectorRec where
  name : String
  changePct : ℚ
  symbol : String
deriving DecidableEq, Repr

/-- An entry of `movers`. -/
structure MoverRec where
  symbol : String
  name : String
  changePct : ℚ
  why : String
deriving DecidableEq, Repr

/-- The `risk` section. -/
structure RiskRec where
  speed : String
  vol : String
  rule : String
deriving DecidableEq, Repr

/-! ### Environment: the outside world of one run

Every network/library call of the script appears here as data: the raw
response (or error) each call would produce during the run being modelled.
The Lean adapter definitions reproduce the script's own processing of the
responses. -/

structure Env where
  /-- Response of `requests.get(stooq_csv(symbol), …)` + `raise_for_status`: the body's
  lines (`r.text.strip().splitlines()`) keyed by the (lowercased) symbol, or
  the network/HTTP exception. -/
  stooq : String → Except SourceError (List String)
  /-- The FRED `DGS10` CSV response lines, or the network/HTTP exception. -/
  fred : Except SourceError (List String)
  /-- Parsed `feedparser.parse` results for a query: the extracted entry dicts
  (lines 128–139).  `feedparser` reports fetch failures in-band, it does not
  raise, so this is total. -/
  rssItems : String → List FeedItem
  /-- Rows of `fc.get_earnings_by_date` for day `today + i`; the per-day `try` at
  lines 274–277 catches any exception. -/
  earnRows : ℕ → Except SourceError (List EarnRow)
  /-- Parsed events of `fetch_fed_schedule`'s scrape; the whole body is in a
  blanket `try/except` returning `[]`, so the adapter is total. -/
  fedEvents : List EventRec
  /-- Parsed events of `fetch_bls_schedule`'s iCal; same blanket `try`. -/
  blsEvents : List EventRec
  /-- Timestamp `datetime.now(KST).strftime(…)`. -/
  updatedAt : String
  /-- Date `(today + timedelta(days=i)).isoformat()`. -/
  dayISO : ℕ → String
  /-- Truth of `abs((fromisoformat(s).date() - today).days) <= 1`; `false` also covers
  the `except: pass` when the date string does not parse. -/
  dateNear : String → Bool

/-- Model of `fetch_stooq_close_series(symbol, limit)`: the symbol is lowercased into
the URL (line 79); the network/HTTP part can raise (no `try` inside), the
CSV processing is `fetch_stooq_parse`. -/
def fetch_stooq_close_series (env : Env) (symbol : String) (limit : ℕ) :
    Except SourceError (List String × List ℚ) :=
  (env.stooq (strLower symbol)).map (fun lines => fetch_stooq_parse lines limit)

/-- Model of `fetch_fred_dgs10(limit)`: network part can raise; so can the row parse
(`d, v = line.split(",")`). -/
def fetch_fred_dgs10 (env : Env) (limit : ℕ) :
    Except SourceError (List String × List ℚ) :=
  (env.fred).bind (fun lines => fetch_fred_parse lines limit)

/-- De-duplication of news items by lowercased title, empty keys skipped
(lines 141–149). -/
def dedupTitles : List FeedItem → List String → List FeedItem
  | [], _ => []
  | it :: rest, seen =>
    let key := strLower it.title
    if key = "" ∨ key ∈ seen then dedupTitles rest seen
    else it :: dedupTitles rest (key :: seen)

/-- Model of `google_news_rss(query, max_items)`: entries truncated to `max_items`,
de-duplicated by title, truncated again.  The per-run `_RSS_CACHE` memoises a
pure function of the URL, so it is observationally the identity here. -/
def google_news_rss (env : Env) (query : String) (max_items : ℕ) :
    List FeedItem :=
  let items := (env.rssItems query).take max_items
  (dedupTitles items []).take max_items

/-- Model of `google_news_one(query)`: first item or `None`; its `try` only guards the
(total) feed call. -/
def google_news_one (env : Env) (query : String) : Option FeedItem :=
  (google_news_rss env query 5).head?

/-- Model of `fetch_fed_schedule(limit)`: scraping is in the environment (blanket
`try/except` makes the adapter total); the script keeps at most `limit`
events. -/
def fetch_fed_schedule (env : Env) (limit : ℕ) : List EventRec :=
  env.fedEvents.take limit

/-- Model of `fetch_bls_schedule(limit)`: same shape as the Fed adapter. -/
def fetch_bls_schedule (env : Env) (limit : ℕ) : List EventRec :=
  env.blsEvents.take limit

/-- Model of `when.split()[0]`: the date part of a date-plus-timing string
(these always start with a non-empty ISO date, so the Python indexing is
safe). -/
def firstTok (s : String) : String := ((splitOnChar ' ' s).headD "")

/-- Deduplication key of an upcoming-earnings entry: `(symbol, date)`. -/
def earnKey (x : EarnItem) : String × String := (x.symbol, firstTok x.when)

/-- The `seen`-set loop of `build_earnings_next_7days` (lines 310–318):
first occurrence of each `(symbol, date)` key survives. -/
def dedupeUpcomingGo : List EarnItem → List (String × String) → List EarnItem
  | [], _ => []
  | x :: rest, seen =>
    if earnKey x ∈ seen then dedupeUpcomingGo rest seen
    else x :: dedupeUpcomingGo rest (earnKey x :: seen)

/-- The `items` list accumulated by the 7-day loop of
`build_earnings_next_7days` (lines 269–308): per-day rows (failures and
malformed payloads degraded to `[]`), field normalisation, watchlist
filter. -/
def earnItemsRaw (env : Env) (myset : List String) : List EarnItem :=
  (List.range 7).flatMap (fun i =>
    let rows := match env.earnRows i with
      | .error _ => []
      | .ok rs => rs
    rows.filterMap (fun r =>
      let sym := pyStrip (strUpper r.symbol)
      if sym == "" then none
      else
        let name := pyStrip r.name
        let timing := pyStrip r.timing
        if myset.contains sym then
          some { when := pyStrip (env.dayISO i ++ " " ++ timing)
                 symbol := sym
                 name := if name != "" then name else koNameGet sym
                 note := "실적 캘린더(Nasdaq)" }
        else none))

/-- Model of `build_earnings_next_7days(myset)`: the accumulated items,
`(symbol, date)` de-duplication, and the final `[:12]`. -/
def build_earnings_next_7days (env : Env) (myset : List String) :
    List EarnItem :=
  (dedupeUpcomingGo (earnItemsRaw env myset) []).take 12

/-! ### KPI builders and snapshot sections -/

/-- One overnight KPI (lines 341–344): presence is tested by truthiness
(`if spx_last`), the value is formatted with `:,.2f`, the change is
`round(pct_change(last, prev), 2)` under the same truthiness test. -/
def buildIndexKpi (icon label desc : String) (last prev : Option ℚ) : KpiRec :=
  { icon := icon, label := label
    valueText := if pyTruthy last then fmtComma2 (last.getD 0) else "-"
    desc := desc
    changePct := if pyTruthy last then round2 (pct_change last prev) else 0 }

/-- Model of `us10y_bp` (line 357): the absolute basis-point delta, `0` when either
observation is missing. -/
def us10y_bp_calc (last prev : Option ℚ) : ℚ :=
  match last, prev with
  | some l, some p => (l - p) * 100
  | _, _ => 0

/-- Model of `macro_kpis` (lines 359–363).  The 10-year-rate entry carries the bp
delta in its `desc` text and a literal `0` in `changePct`. -/
def buildMacroKpis (us10y_last us10y_prev dxy_last dxy_prev
    wti_last wti_prev : Option ℚ) : List KpiRec :=
  let bp := us10y_bp_calc us10y_last us10y_prev
  [ { icon := "🏦", label := "미국 10년 금리"
      valueText := if pyTruthy us10y_last then fmt2 (us10y_last.getD 0) ++ "%" else "-"
      desc := "FRED(DGS10) · 전일 " ++ fmtSigned0 bp ++ "bp"
      changePct := 0 },
    { icon := "💵", label := "달러값(DXY)"
      valueText := if pyTruthy dxy_last then fmt2 (dxy_last.getD 0) else "-"
      desc := "Stooq(DX.F)"
      changePct := if pyTruthy dxy_last then round2 (pct_change dxy_last dxy_prev) else 0 },
    { icon := "🛢️", label := "유가(WTI)"
      valueText := if pyTruthy wti_last then fmt2 (wti_last.getD 0) else "-"
      desc := "Stooq(CL.F)"
      changePct := if pyTruthy wti_last then round2 (pct_change wti_last wti_prev) else 0 } ]

/-- One entry of `mystocks` (lines 384–416): the per-ticker Stooq fetch is
wrapped in `try/except` and degraded to `[]`. -/
def buildMyStock (env : Env) (up_map : List (String × String)) (t : String) :
    StockRec :=
  let sym := strUpper t
  let stooq_sym := strLower sym ++ ".us"
  let closes := match fetch_stooq_close_series env stooq_sym 3 with
    | .error _ => []
    | .ok (_, cs) => cs
  let lp := last_prev closes
  let chg := match lp.1, lp.2 with
    | some _, some _ => round2 (pct_change lp.1 lp.2)
    | _, _ => 0
  let last_txt := match lp.1 with
    | some l => fmt2 l
    | none => "-"
  let price_text := match lp.1 with
    | some _ =>
        "$" ++ last_txt ++ " (" ++ (if 0 ≤ chg then "↑" else "↓")
          ++ fmt2 |chg| ++ "%)"
    | none => "-"
  let news_text := match google_news_one env (sym ++ " stock") with
    | some h => if h.title != "" then h.title else "없음"
    | none => "없음"
  let next_event := match pyDictGet up_map sym with
    | some w => if w != "" then w else "없음"
    | none => "없음"
  { symbol := sym, name := koNameGet sym, koName := koNameGet sym
    last := last_txt, changePct := chg, priceText := price_text
    news := news_text, nextEvent := next_event, memo := "" }

/-- One entry of `sectors` (lines 420–427), same wrapped-fetch shape. -/
def buildSector (env : Env) (etf ko : String) : SectorRec :=
  let closes := match fetch_stooq_close_series env (strLower etf ++ ".us") 3 with
    | .error _ => []
    | .ok (_, cs) => cs
  let lp := last_prev closes
  let chg := match lp.1, lp.2 with
    | some _, some _ => round2 (pct_change lp.1 lp.2)
    | _, _ => 0
  { name := ko, changePct := chg, symbol := etf }

/-- Python `max(l, key=f, default=None)` (first maximal element wins). -/
def pyMaxBy (f : α → ℚ) : List α → Option α
  | [] => none
  | x :: xs => some (xs.foldl (fun acc y => if f acc < f y then y else acc) x)

/-- Python `min(l, key=f, default=None)` (first minimal element wins). -/
def pyMinBy (f : α → ℚ) : List α → Option α
  | [] => none
  | x :: xs => some (xs.foldl (fun acc y => if f y < f acc then y else acc) x)

/-- De-dup of `movers` by symbol (lines 462–468). -/
def dedupeMovers : List MoverRec → List String → List MoverRec
  | [], _ => []
  | m :: rest, seen =>
    if m.symbol ∈ seen then dedupeMovers rest seen
    else m :: dedupeMovers rest (m.symbol :: seen)

/-- Chart-series records. -/
structure OvernightSeries where
  labels : List String
  spx : List ℚ
  ixic : List (Option ℚ)
  dji : List (Option ℚ)
deriving DecidableEq, Repr

structure MacroSeries where
  labels : List String
  us10y : List (Option ℚ)
  dxy : List (Option ℚ)
  wti : List (Option ℚ)
deriving DecidableEq, Repr

structure OvernightSec where
  kpis : List KpiRec
  bigFlowReason : String
  series : OvernightSeries
deriving DecidableEq, Repr

structure SchedRec where
  econ : List EventRec
  fed : List EventRec
deriving DecidableEq, Repr

structure MacroSec where
  kpis : List KpiRec
  series : MacroSeries
deriving DecidableEq, Repr

structure EarnSec where
  upcoming : List EarnItem
  movers : List MoverRec
deriving DecidableEq, Repr

structure SectorOut where
  name : String
  changePct : ℚ
deriving DecidableEq, Repr

/-- The in-memory snapshot document (`payload`, lines 528–550).  The field
holding the JSON key `"macro"` is called `mac` because `macro` is reserved
in Lean. -/
structure Payload where
  updatedAt : String
  oneLine : String
  mood : MoodRec
  action : ActionRec
  overnight : OvernightSec
  schedule : SchedRec
  mac : MacroSec
  newsTop5 : List FeedItem
  earnings : EarnSec
  sectors : List SectorOut
  myStocks : List StockRec
  risk : RiskRec
  todo3 : List String
deriving DecidableEq, Repr

/-! ### The pipeline (`main`, lines 325–550)

The seven fetches for the index/VIX/macro series (lines 330–333 and
348–350) are *not* wrapped in `try/except` in the script, so their failures
propagate — they appear below as `Except` binds.  The per-ticker, sector,
earnings, news and schedule calls are wrapped (or internally total) and are
degraded to empty values. -/

def mainPipeline (env : Env) : Except SourceError Payload := do
  let updated_at := env.updatedAt
  -- Indices / VIX (unwrapped fetches)
  let (spx_labels, spx) ← fetch_stooq_close_series env "^spx" 35
  let (ndq_labels, ixic) ← fetch_stooq_close_series env "^ndq" 35
  let (dji_labels, dji) ← fetch_stooq_close_series env "^dji" 35
  let (_vix_labels, vix) ← fetch_stooq_close_series env "vi.f" 35
  let slp := last_prev spx
  let nlp := last_prev ixic
  let dlp := last_prev dji
  let vlp := last_prev vix
  let overnight_kpis :=
    [ buildIndexKpi "📈" "S&P500" "대표 지수" slp.1 slp.2,
      buildIndexKpi "📈" "나스닥" "기술주 비중" nlp.1 nlp.2,
      buildIndexKpi "📈" "다우" "대형 가치주" dlp.1 dlp.2,
      buildIndexKpi "😱" "VIX" "불안하면 ↑" vlp.1 vlp.2 ]
  -- Macro: US10Y (FRED), DXY, WTI (unwrapped fetches)
  let (us10y_labels, us10y) ← fetch_fred_dgs10 env 35
  let (dxy_labels, dxy) ← fetch_stooq_close_series env "dx.f" 35
  let (wti_labels, wti) ← fetch_stooq_close_series env "cl.f" 35
  let ulp := last_prev us10y
  let xlp := last_prev dxy
  let wlp := last_prev wti
  let us10y_bp := us10y_bp_calc ulp.1 ulp.2
  let macro_kpis := buildMacroKpis ulp.1 ulp.2 xlp.1 xlp.2 wlp.1 wlp.2
  -- align macro labels by us10y labels for chart
  let labels :=
    if !us10y_labels.isEmpty then pySliceLastN 30 us10y_labels
    else if !spx_labels.isEmpty then pySliceLastN 30 spx_labels
    else []
  let macro_series : MacroSeries :=
    { labels := labels
      us10y := alignSeries labels (us10y_labels.zip us10y)
      dxy := alignSeries labels (dxy_labels.zip dxy)
      wti := alignSeries labels (wti_labels.zip wti) }
  -- Earnings (next 7 days, my tickers only)
  let myset := MY_TICKERS
  let upcoming := build_earnings_next_7days env myset
  let up_map := upcoming.map (fun u => (u.symbol, u.when))
  -- My stocks (wrapped per-ticker fetches)
  let mystocks := MY_TICKERS.map (buildMyStock env up_map)
  -- Sectors (wrapped per-ETF fetches)
  let sectors := SECTOR_ETFS.map (fun p => buildSector env p.1 p.2)
  -- Movers: earnings-near tickers, then percent-change-ranked proxy fill
  let near_syms := upcoming.filterMap (fun u =>
    if env.dateNear (firstTok u.when) then some u.symbol else none)
  let movers1 := mystocks.filterMap (fun x =>
    if near_syms.contains x.symbol then
      some { symbol := x.symbol, name := x.name, changePct := x.changePct
             why := "실적 근접일(±1일) 자동 표기 / 변동 "
               ++ fmtSigned2 x.changePct ++ "%" : MoverRec }
    else none)
  let moversAll :=
    if movers1.length < 6 then
      let my_sorted :=
        List.insertionSort (fun a b => b.changePct ≤ a.changePct) mystocks
      let proxy := my_sorted.take 3 ++ pySliceLastN 3 my_sorted
      movers1 ++ proxy.map (fun x =>
        { symbol := x.symbol, name := x.name, changePct := x.changePct
          why := "급등락(프록시) — 실적/뉴스 연동 여부 확인" : MoverRec })
    else movers1
  let movers := (dedupeMovers moversAll []).take 10
  -- Schedule
  let econ_events := fetch_bls_schedule env 8
  let fed_events := fetch_fed_schedule env 6
  -- News Top5
  let news0 := google_news_rss env "US stock market futures S&P 500" 12
  let news1 :=
    if news0.length < 5 then
      (news0 ++ google_news_rss env "Nasdaq earnings" 12).take 12
    else news0
  let news := news1.take 5
  -- Mood/Action simple rule
  let spx_chg := match slp.1, slp.2 with
    | some _, some _ => pct_change slp.1 slp.2
    | _, _ => 0
  let vix_val := vlp.1
  let ma := moodAction spx_chg vix_val
  -- One-line summary
  let one_line :=
    match pyMaxBy (fun x : StockRec => x.changePct) mystocks,
          pyMinBy (fun x : StockRec => x.changePct) mystocks with
    | some top, some bot =>
        "지수 " ++ (if 0 ≤ spx_chg then "상승" else "하락") ++ "("
          ++ fmtSigned2 spx_chg ++ "%), "
          ++ "10Y " ++ fmtSigned0 us10y_bp ++ "bp, "
          ++ "DXY " ++ fmtSigned2 (pct_change xlp.1 xlp.2) ++ "%, "
          ++ "WTI " ++ fmtSigned2 (pct_change wlp.1 wlp.2) ++ "%. "
          ++ "내 종목 TOP: " ++ top.symbol ++ "(" ++ fmtSigned2 top.changePct
          ++ "%) / BOT: " ++ bot.symbol ++ "(" ++ fmtSigned2 bot.changePct
          ++ "%)."
    | _, _ => "자동 업데이트: 지수/금리/달러/유가 + 내 종목 변동 반영"
  -- Risk
  let max_abs := (mystocks.map (fun x => |x.changePct|)).foldr max 0
  let risk : RiskRec :=
    { speed := "내 종목 최대 절대등락: " ++ fmt2 max_abs ++ "%"
      vol := match vlp.1 with
        | some v => "VIX: " ++ fmt2 v
        | none => "VIX: -"
      rule := "오늘 액션: " ++ ma.2.value ++ " (무리 금지)" }
  -- Overnight series (30) aligned by spx_labels
  let ov_labels := if !spx_labels.isEmpty then pySliceLastN 30 spx_labels else []
  let overnight_series : OvernightSeries :=
    { labels := ov_labels
      spx := if !spx.isEmpty then pySliceLastN 30 spx else []
      ixic := alignSeries ov_labels (ndq_labels.zip ixic)
      dji := alignSeries ov_labels (dji_labels.zip dji) }
  pure
    { updatedAt := updated_at
      oneLine := one_line
      mood := ma.1
      action := ma.2
      overnight :=
        { kpis := overnight_kpis
          bigFlowReason :=
            "무료 데이터 기반 자동 생성(v2): 지수/변동성/금리/달러/유가 + 내 종목 급등락을 결합"
          series := overnight_series }
      schedule := { econ := econ_events, fed := fed_events }
      mac := { kpis := macro_kpis, series := macro_series }
      newsTop5 := news
      earnings := { upcoming := upcoming, movers := movers }
      sectors := sectors.map (fun x => { name := x.name, changePct := x.changePct })
      myStocks := mystocks
      risk := risk
      todo3 :=
        [ "내 종목 변동 상위/하위 3개만 따로 체크",
          "급등/급락 종목은 뉴스 확인 후 대응",
          "오늘은 ‘한 번만’ 매매 규칙 지키기" ] }

/-! ### Serialisation and the single write -/

/-- JSON values, as far as this payload needs them. -/
inductive JVal where
  | s (v : String)
  | num (v : ℚ)
  | b (v : Bool)
  | nul
  | arr (vs : List JVal)
  | obj (fields : List (String × JVal))

def optNum : Option ℚ → JVal
  | none => .nul
  | some v => .num v

def kpiJson (k : KpiRec) : JVal :=
  .obj [("icon", .s k.icon), ("label", .s k.label),
        ("valueText", .s k.valueText), ("desc", .s k.desc),
        ("changePct", .num k.changePct)]

def feedItemJson (n : FeedItem) : JVal :=
  .obj [("title", .s n.title), ("why", .s n.why), ("source", .s n.source),
        ("star", .b n.star)]

def eventJson (e : EventRec) : JVal :=
  .obj [("time", .s e.time), ("title", .s e.title), ("note", .s e.note)]

def earnItemJson (e : EarnItem) : JVal :=
  .obj [("when", .s e.when), ("symbol", .s e.symbol), ("name", .s e.name),
        ("note", .s e.note)]

def moverJson (m : MoverRec) : JVal :=
  .obj [("symbol", .s m.symbol), ("name", .s m.name),
        ("changePct", .num m.changePct), ("why", .s m.why)]

def stockJson (x : StockRec) : JVal :=
  .obj [("symbol", .s x.symbol), ("name", .s x.name), ("koName", .s x.koName),
        ("last", .s x.last), ("changePct", .num x.changePct),
        ("priceText", .s x.priceText), ("news", .s x.news),
        ("nextEvent", .s x.nextEvent), ("memo", .s x.memo)]

def overnightSeriesJson (s : OvernightSeries) : JVal :=
  .obj [("labels", .arr (s.labels.map .s)),
        ("spx", .arr (s.spx.map .num)),
        ("ixic", .arr (s.ixic.map optNum)),
        ("dji", .arr (s.dji.map optNum))]

def macroSeriesJson (s : MacroSeries) : JVal :=
  .obj [("labels", .arr (s.labels.map .s)),
        ("us10y", .arr (s.us10y.map optNum)),
        ("dxy", .arr (s.dxy.map optNum)),
        ("wti", .arr (s.wti.map optNum))]

/-- The `json.dumps`-level rendering of the payload dict literal
(lines 528–550): the top-level keys are unconditional. -/
def payloadToJson (p : Payload) : JVal :=
  .obj
    [ ("updatedAt", .s p.updatedAt),
      ("oneLine", .s p.oneLine),
      ("mood", .obj [("value", .s p.mood.value), ("reason", .s p.mood.reason)]),
      ("action", .obj [("value", .s p.action.value), ("note", .s p.action.note),
                       ("beginnerMemo", .s p.action.beginnerMemo)]),
      ("overnight", .obj [("kpis", .arr (p.overnight.kpis.map kpiJson)),
                          ("bigFlowReason", .s p.overnight.bigFlowReason),
                          ("series", overnightSeriesJson p.overnight.series)]),
      ("schedule", .obj [("econ", .arr (p.schedule.econ.map eventJson)),
                         ("fed", .arr (p.schedule.fed.map eventJson))]),
      ("macro", .obj [("kpis", .arr (p.mac.kpis.map kpiJson)),
                      ("series", macroSeriesJson p.mac.series)]),
      ("newsTop5", .arr (p.newsTop5.map feedItemJson)),
      ("earnings", .obj [("upcoming", .arr (p.earnings.upcoming.map earnItemJson)),
                         ("movers", .arr (p.earnings.movers.map moverJson))]),
      ("sectors", .arr (p.sectors.map (fun x =>
        .obj [("name", .s x.name), ("changePct", .num x.changePct)]))),
      ("myStocks", .arr (p.myStocks.map stockJson)),
      ("risk", .obj [("speed", .s p.risk.speed), ("vol", .s p.risk.vol),
                     ("rule", .s p.risk.rule)]),
      ("todo3", .arr (p.todo3.map .s)) ]

/-- Keys of a JSON object. -/
def jsonKeys : JVal → List String
  | .obj fields => fields.map Prod.fst
  | _ => []

/-- The whole run against the output artifact: `main` performs exactly one
write, `OUT.write_text(json.dumps(payload, …))`, as its final statement
(line 552), after the full document has been constructed and serialised;
any exception raised earlier ends the run without touching the artifact.
The artifact is modelled by its (parsed) content. -/
def runMain (env : Env) (fs : Option JVal) :
    Option JVal × Except SourceError Unit :=
  match mainPipeline env with
  | .error e => (fs, .error e)
  | .ok p => (some (payloadToJson p), .ok ())

/-! ### Date order

ISO `YYYY-MM-DD` date strings compare chronologically via the lexicographic
order on their characters; we use a structurally recursive comparison. -/

def charListLt : List Char → List Char → Bool
  | [], [] => false
  | [], _ :: _ => true
  | _ :: _, [] => false
  | a :: as, b :: bs => if a = b then charListLt as bs else decide (a < b)

/-- Strict lexicographic order on strings (= chronological order on ISO
dates). -/
def strDateLt (a b : String) : Bool := charListLt a.toList b.toList

/-- A list of date strings in strictly ascending date order. -/
def datesAscending (l : List String) : Prop :=
  List.Pairwise (fun a b => strDateLt a b = true) l

instance (l : List String) : Decidable (datesAscending l) := by
  unfold datesAscending; infer_instance

/-! ## Theorems about the claims -/

/-- C1, counterexample.  The claim says a missing input makes the percent
change "absent/undefined, not … a silent 0.0 masquerading as a real value".
In the code `pct_change` returns the float `0.0` when an input is missing —
the very same value it returns for a genuinely unchanged price — so the
missing-input case is *not* reported as absent. -/
theorem pct_change_missing_counterexample :
    pct_change none (some 100) = 0 ∧ pct_change (some 100) (some 100) = 0 := by
  constructor
  · rfl
  · norm_num [pct_change]

/-- C1, amended.  `pct_change(last, prev)` equals `(last/prev − 1) × 100`
when both inputs are present and `prev ≠ 0`; when either input is missing,
or `prev = 0`, it returns the value `0.0` (indistinguishable from a real
zero change) rather than an absent marker. -/
theorem pct_change_formula (l p : ℚ) (x y : Option ℚ) :
    (p ≠ 0 → pct_change (some l) (some p) = (l / p - 1) * 100)
    ∧ pct_change (some l) (some 0) = 0
    ∧ pct_change none y = 0
    ∧ pct_change x none = 0 := by
  refine ⟨fun hp => ?_, ?_, ?_, ?_⟩
  · simp [pct_change, hp]
  · simp [pct_change]
  · rfl
  · cases x <;> rfl

/-- C1, witness for `pct_change_formula` at `last = 3`, `prev = 2`. -/
theorem pct_change_formula_witness :
    (2 : ℚ) ≠ 0 ∧ pct_change (some 3) (some 2) = ((3 : ℚ) / 2 - 1) * 100 :=
  ⟨by norm_num, (pct_change_formula 3 2 none none).1 (by norm_num)⟩

/-- Condition `vix_val is None or vix_val < 18`, propositionally. -/
theorem vixLow_iff (v : Option ℚ) :
    vixLow v = true ↔ v = none ∨ ∃ x, v = some x ∧ x < 18 := by
  cases v <;> simp [vixLow]

/-- Condition `vix_val is not None and vix_val > 20`, propositionally. -/
theorem vixHigh_iff (v : Option ℚ) :
    vixHigh v = true ↔ ∃ x, v = some x ∧ x > 20 := by
  cases v <;> simp [vixHigh]

/-- C3.  The mood/action rule is exactly the three-branch decision table:
index change strictly above `+0.5` with volatility absent or strictly below
18 gives the favorable mood and light-buy action; index change strictly
below `−0.5` with volatility present and strictly above 20 gives the
unfavorable mood and the hold action; every other pair gives the neutral
mood and the hold action; and an index change of exactly `+0.5` never
triggers the favorable branch. -/
theorem mood_decision_table (c : ℚ) (v : Option ℚ) :
    ((c > 1/2 ∧ (v = none ∨ ∃ x, v = some x ∧ x < 18)) →
        moodAction c v = (moodGood, actionBuy))
    ∧ ((c < -(1/2) ∧ ∃ x, v = some x ∧ x > 20) →
        moodAction c v = (moodBad, actionHoldBad))
    ∧ ((¬(c > 1/2 ∧ (v = none ∨ ∃ x, v = some x ∧ x < 18))
        ∧ ¬(c < -(1/2) ∧ ∃ x, v = some x ∧ x > 20)) →
        moodAction c v = (moodNeutral, actionHoldNeutral))
    ∧ moodAction (1/2) v = (moodNeutral, actionHoldNeutral) := by
  have key : ∀ c' (v' : Option ℚ), moodAction c' v' =
      if c' > 1/2 ∧ vixLow v' = true then (moodGood, actionBuy)
      else if c' < -(1/2) ∧ vixHigh v' = true then (moodBad, actionHoldBad)
      else (moodNeutral, actionHoldNeutral) := by
    intro c' v'
    simp [moodAction]
  refine ⟨fun h => ?_, fun h => ?_, fun h => ?_, ?_⟩
  · rw [key, if_pos ⟨h.1, (vixLow_iff v).mpr h.2⟩]
  · have hc : ¬(c > 1/2) := by have := h.1; intro hgt; linarith
    rw [key, if_neg (fun hcc => hc hcc.1),
      if_pos ⟨h.1, (vixHigh_iff v).mpr h.2⟩]
  · obtain ⟨h1, h2⟩ := h
    rw [key, if_neg (fun hcc => h1 ⟨hcc.1, (vixLow_iff v).mp hcc.2⟩),
      if_neg (fun hcc => h2 ⟨hcc.1, (vixHigh_iff v).mp hcc.2⟩)]
  · rw [key, if_neg (fun hcc => absurd hcc.1 (lt_irrefl _)),
      if_neg (fun hcc => absurd hcc.1 (by norm_num))]

/-- C3, witness: `(0.8, 15) ↦` favorable/light-buy. -/
theorem mood_decision_table_witness :
    moodAction (8/10) (some 15) = (moodGood, actionBuy) :=
  (mood_decision_table (8/10) (some 15)).1
    ⟨by norm_num, Or.inr ⟨15, rfl, by norm_num⟩⟩

/-- C8.  The 10-year-rate KPI reports the day-over-day move as the absolute
basis-point delta `(last − prev) × 100` (carried in its description text)
whenever both observations are present, and its `changePct` field is the
constant `0`, never a relative percent change. -/
theorem us10y_bp_delta (l p : ℚ) (c d e f : Option ℚ) :
    us10y_bp_calc (some l) (some p) = (l - p) * 100
    ∧ ((buildMacroKpis (some l) (some p) c d e f).map KpiRec.changePct).head?
        = some 0
    ∧ ((buildMacroKpis (some l) (some p) c d e f).map KpiRec.desc).head?
        = some ("FRED(DGS10) · 전일 " ++ fmtSigned0 ((l - p) * 100) ++ "bp") := by
  refine ⟨rfl, rfl, ?_⟩
  simp [buildMacroKpis, us10y_bp_calc]

/-- C10.  Because presence is tested by Python truthiness, an index KPI whose
latest close is exactly `0.0` is rendered identically to one whose source
returned no data: `valueText "-"`, `changePct 0` — the two situations are
indistinguishable at the interface. -/
theorem kpi_zero_close_indistinguishable (icon label desc : String)
    (prev prev2 : Option ℚ) :
    buildIndexKpi icon label desc (some 0) prev
      = buildIndexKpi icon label desc none prev2
    ∧ (buildIndexKpi icon label desc (some 0) prev).valueText = "-"
    ∧ (buildIndexKpi icon label desc (some 0) prev).changePct = 0 := by
  refine ⟨?_, rfl, rfl⟩
  simp [buildIndexKpi, pyTruthy]

/-! ### Lookup lemmas for the aligner -/

theorem pyDictGet_eq_none {α} (pairs : List (String × α)) (d : String)
    (h : d ∉ pairs.map Prod.fst) : pyDictGet pairs d = none := by
  induction pairs with
  | nil => rfl
  | cons q rest ih =>
    simp only [List.map_cons, List.mem_cons, not_or] at h
    have h1 : q.1 ≠ d := fun hk => h.1 hk.symm
    simp [pyDictGet, ih h.2, h1]

theorem pyDictGet_isSome {α} (pairs : List (String × α)) (d : String)
    (h : d ∈ pairs.map Prod.fst) : (pyDictGet pairs d).isSome = true := by
  induction pairs with
  | nil => simp at h
  | cons q rest ih =>
    simp only [List.map_cons, List.mem_cons] at h
    by_cases hr : d ∈ rest.map Prod.fst
    · obtain ⟨w, hw⟩ := Option.isSome_iff_exists.mp (ih hr)
      simp [pyDictGet, hw]
    · have hd : d = q.1 := h.resolve_right hr
      subst hd
      cases hpd : pyDictGet rest q.1 with
      | none => simp [pyDictGet, hpd]
      | some w => simp [pyDictGet, hpd]

theorem pyDictGet_cons_of_mem {α} (q : String × α) (rest : List (String × α))
    (d : String) (h : d ∈ rest.map Prod.fst) :
    pyDictGet (q :: rest) d = pyDictGet rest d := by
  obtain ⟨w, hw⟩ := Option.isSome_iff_exists.mp (pyDictGet_isSome rest d h)
  simp [pyDictGet, hw]

theorem pyDictGet_self {α} (q : String × α) (rest : List (String × α))
    (h : q.1 ∉ rest.map Prod.fst) :
    pyDictGet (q :: rest) q.1 = some q.2 := by
  simp [pyDictGet, pyDictGet_eq_none rest q.1 h]

/-- C4.  Aligning any series onto a date axis yields an array of exactly the
axis's length, whose entry at each position is the date-equality dictionary
lookup of the axis date; a date absent from the series yields the explicit
missing marker `none` (never an interpolated, zero, or neighbouring value);
and for a series whose own (duplicate-free) dates form the axis, the lookup
reproduces the series values positionally. -/
theorem align_series_spec (axis : List String) (pairs : List (String × ℚ)) :
    (alignSeries axis pairs).length = axis.length
    ∧ (∀ i : ℕ, (alignSeries axis pairs)[i]? = (axis[i]?).map (pyDictGet pairs))
    ∧ (∀ d, d ∉ pairs.map Prod.fst → pyDictGet pairs d = none)
    ∧ ((pairs.map Prod.fst).Nodup →
        alignSeries (pairs.map Prod.fst) pairs = pairs.map (fun q => some q.2)) := by
  refine ⟨List.length_map _ _, fun i => List.getElem?_map _ _ _,
    fun d hd => pyDictGet_eq_none pairs d hd, fun hnd => ?_⟩
  induction pairs with
  | nil => rfl
  | cons q rest ih =>
    simp only [List.map_cons, List.nodup_cons] at hnd
    unfold alignSeries
    simp only [List.map_cons]
    congr 1
    · exact pyDictGet_self q rest hnd.1
    · have step : ∀ d ∈ rest.map Prod.fst,
          pyDictGet (q :: rest) d = pyDictGet rest d := fun d hd =>
        pyDictGet_cons_of_mem q rest d hd
      rw [List.map_congr_left step]
      exact ih hnd.2

/-- C4, witness: a two-point series aligned on its own axis, and a missing
date yielding `none`. -/
theorem align_series_spec_witness :
    alignSeries ["2024-01-01", "2024-01-02"]
        [("2024-01-01", (1 : ℚ)), ("2024-01-02", 2)] = [some 1, some 2]
    ∧ pyDictGet [("2024-01-01", (1 : ℚ)), ("2024-01-02", 2)] "2024-01-03"
        = none := by
  constructor
  · have h := (align_series_spec ["2024-01-01", "2024-01-02"]
      [("2024-01-01", (1 : ℚ)), ("2024-01-02", 2)]).2.2.2 (by decide)
    simpa using h
  · exact (align_series_spec ["2024-01-01", "2024-01-02"]
      [("2024-01-01", (1 : ℚ)), ("2024-01-02", 2)]).2.2.1 "2024-01-03" (by decide)

/-- A Stooq response whose data rows come newest-first (descending by
date). -/
def linesDescExample : List String :=
  ["Date,Open,High,Low,Close,Volume",
   "2024-01-03,1,1,1,30,5",
   "2024-01-02,1,1,1,20,5",
   "2024-01-01,1,1,1,10,5"]

/-- The same response oldest-first (ascending by date), as Stooq actually
serves it. -/
def linesAscExample : List String :=
  ["Date,Open,High,Low,Close,Volume",
   "2024-01-01,1,1,1,10,5",
   "2024-01-02,1,1,1,20,5",
   "2024-01-03,1,1,1,30,5"]

/-- C6, counterexample.  The adapters never sort: on a descending response
the returned series is descending, and `rows[-limit:]` keeps the *oldest*
two observations — the most recent date `2024-01-03` is dropped. -/
theorem stooq_no_sort_counterexample :
    fetch_stooq_parse linesDescExample 2
      = (["2024-01-02", "2024-01-01"], [20, 10])
    ∧ ¬ datesAscending ["2024-01-02", "2024-01-01"]
    ∧ "2024-01-03" ∉ ["2024-01-02", "2024-01-01"] := by
  refine ⟨?_, by decide, by decide⟩
  norm_num +decide [fetch_stooq_parse, stooqRows, stooqRow, pySliceLastN,
    safe_float, digitsToNat?, digitVal, pyStrip, splitOnCharAux, splitOnChar,
    isWS, linesDescExample, List.filterMap_cons, List.filterMap_nil]

/-- C6, amended.  The adapters perform no sort: they keep the provider's row
order and trim with `rows[-limit:]`.  Consequently, when the provider
returns its valid rows ascending by date — as Stooq and FRED do — the
returned series is strictly ascending and consists of the `limit` most
recent valid observations; order is preserved, not established. -/
theorem stooq_fred_preserve_order (lines flines : List String) (limit : ℕ)
    (h3 : 3 ≤ lines.length) (hl : limit ≠ 0)
    (hs : datesAscending ((stooqRows lines).map Prod.fst)) :
    (fetch_stooq_parse lines limit).1
        = ((stooqRows lines).map Prod.fst).drop
            (((stooqRows lines).map Prod.fst).length - limit)
    ∧ datesAscending (fetch_stooq_parse lines limit).1
    ∧ (∀ rows, fredRowsE flines = .ok rows →
        datesAscending (rows.map Prod.fst) →
        fetch_fred_parse flines limit
          = .ok ((pySliceLastN limit rows).map Prod.fst,
                 (pySliceLastN limit rows).map Prod.snd)
        ∧ datesAscending ((pySliceLastN limit rows).map Prod.fst)) := by
  have hnotlt : ¬ lines.length < 3 := by omega
  have hmain : (fetch_stooq_parse lines limit).1
      = ((stooqRows lines).map Prod.fst).drop
          (((stooqRows lines).map Prod.fst).length - limit) := by
    rw [fetch_stooq_parse, if_neg hnotlt]
    show (pySliceLastN limit (stooqRows lines)).map Prod.fst = _
    rw [pySliceLastN, if_neg hl, List.map_drop, List.length_map]
  refine ⟨hmain, ?_, fun rows h hasc => ?_⟩
  · rw [hmain]
    exact hs.sublist (List.drop_sublist _ _)
  · constructor
    · rw [fetch_fred_parse, h]
      rfl
    · rw [pySliceLastN, if_neg hl, List.map_drop]
      exact hasc.sublist (List.drop_sublist _ _)

/-- C6, witness: on the ascending example responses the Stooq adapter output
is ascending and equals the two most recent rows, and the FRED branch holds
for a small ascending FRED response. -/
theorem stooq_fred_preserve_order_witness :
    (fetch_stooq_parse linesAscExample 2).1
        = ((stooqRows linesAscExample).map Prod.fst).drop
            (((stooqRows linesAscExample).map Prod.fst).length - 2)
    ∧ datesAscending (fetch_stooq_parse linesAscExample 2).1 := by
  have h := stooq_fred_preserve_order linesAscExample
    ["DATE,DGS10", "2024-01-02,4.0", "2024-01-03,4.1"] 2
    (by decide) (by decide) (by decide)
  exact ⟨h.1, h.2.1⟩

/-- An environment whose only earnings data are, on day 1, two NVDA rows
with the same date and different timing labels. -/
def envEarnOne : Env :=
  { stooq := fun _ => .error .network
    fred := .error .network
    rssItems := fun _ => []
    earnRows := fun i =>
      if i = 1 then
        .ok [{ symbol := "NVDA", name := "", timing := "BMO" },
             { symbol := "NVDA", name := "", timing := "AMC" }]
      else .ok []
    fedEvents := []
    blsEvents := []
    updatedAt := ""
    dayISO := fun i => if i = 0 then "2026-10-13" else "2026-10-14"
    dateNear := fun _ => false }

/-- An environment with an earnings-heavy week: all 12 watchlist tickers
report on day 0, and on day 1 NE reports plus the same two NVDA
rows (same date, different timings). -/
def envEarnCap : Env :=
  { stooq := fun _ => .error .network
    fred := .error .network
    rssItems := fun _ => []
    earnRows := fun i =>
      if i = 0 then
        .ok (MY_TICKERS.map (fun t => { symbol := t, name := "", timing := "" }))
      else if i = 1 then
        .ok [{ symbol := "NE", name := "", timing := "" },
             { symbol := "NVDA", name := "", timing := "BMO" },
             { symbol := "NVDA", name := "", timing := "AMC" }]
      else .ok []
    fedEvents := []
    blsEvents := []
    updatedAt := ""
    dayISO := fun i => if i = 0 then "2026-10-13" else "2026-10-14"
    dateNear := fun _ => false }

/-- C7, counterexample.  De-duplication is indeed keyed by
`(symbol, date)`, but the final `[:12]` truncation can drop the surviving
row: in `envEarnCap` the raw items contain two NVDA rows for 2026-10-14
(different timing labels), yet the final `upcoming` list contains *zero*
rows with that key — not "exactly one". -/
theorem earn_dedup_cap_counterexample :
    (earnItemsRaw envEarnCap MY_TICKERS).countP
        (fun x => x.symbol == "NVDA" && firstTok x.when == "2026-10-14") = 2
    ∧ (build_earnings_next_7days envEarnCap MY_TICKERS).countP
        (fun x => x.symbol == "NVDA" && firstTok x.when == "2026-10-14") = 0 := by
  decide

/-- Keys of the deduplicated list are pairwise distinct, and none of them
was in the initial `seen` set. -/
theorem dedupe_keys_distinct (l : List EarnItem)
    (seen : List (String × String)) :
    (dedupeUpcomingGo l seen).Pairwise (fun a b => earnKey a ≠ earnKey b)
    ∧ ∀ y ∈ dedupeUpcomingGo l seen, earnKey y ∉ seen := by
  induction l generalizing seen with
  | nil => exact ⟨List.Pairwise.nil, by simp [dedupeUpcomingGo]⟩
  | cons x rest ih =>
    by_cases hx : earnKey x ∈ seen
    · simp only [dedupeUpcomingGo, if_pos hx]
      exact ih seen
    · simp only [dedupeUpcomingGo, if_neg hx]
      obtain ⟨ihp, ihs⟩ := ih (earnKey x :: seen)
      refine ⟨List.Pairwise.cons (fun y hy => ?_) ihp, ?_⟩
      · have := ihs y hy
        simp only [List.mem_cons, not_or] at this
        exact fun hk => this.1 hk.symm
      · intro y hy
        rcases List.mem_cons.mp hy with rfl | hyr
        · exact hx
        · have := ihs y hyr
          simp only [List.mem_cons, not_or] at this
          exact this.2

/-- Every key occurring in the input has a representative in the
deduplicated list (provided it was not already seen). -/
theorem dedupe_complete (l : List EarnItem) (seen : List (String × String))
    (x : EarnItem) (hx : x ∈ l) (hs : earnKey x ∉ seen) :
    ∃ y ∈ dedupeUpcomingGo l seen, earnKey y = earnKey x := by
  induction l generalizing seen with
  | nil => simp at hx
  | cons h rest ih =>
    rcases List.mem_cons.mp hx with rfl | hxr
    · simp only [dedupeUpcomingGo, if_neg hs]
      exact ⟨x, List.mem_cons_self _ _, rfl⟩
    · by_cases hh : earnKey h ∈ seen
      · simp only [dedupeUpcomingGo, if_pos hh]
        exact ih seen hxr hs
      · simp only [dedupeUpcomingGo, if_neg hh]
        by_cases hk : earnKey x = earnKey h
        · exact ⟨h, List.mem_cons_self _ _, hk.symm⟩
        · have hs2 : earnKey x ∉ earnKey h :: seen := by simp [hs, hk]
          obtain ⟨y, hy, hky⟩ := ih (earnKey h :: seen) hxr hs2
          exact ⟨y, List.mem_cons_of_mem _ hy, hky⟩

/-- C7, amended.  In the final `upcoming` list at most one row survives per
`(symbol, date)` key (the first occurrence); and whenever the deduplicated
list fits the `[:12]` cap, every `(symbol, date)` key of the raw items —
in particular a pair of same-symbol same-date rows with different timing
labels — has exactly one surviving representative. -/
theorem earn_dedup_amended (env : Env) (myset : List String)
    (hlen : (dedupeUpcomingGo (earnItemsRaw env myset) []).length ≤ 12) :
    (build_earnings_next_7days env myset).Pairwise
        (fun a b => earnKey a ≠ earnKey b)
    ∧ ∀ x ∈ earnItemsRaw env myset,
        ∃ y ∈ build_earnings_next_7days env myset, earnKey y = earnKey x := by
  constructor
  · exact ((dedupe_keys_distinct (earnItemsRaw env myset) []).1).sublist
      (List.take_sublist _ _)
  · intro x hx
    have h := dedupe_complete (earnItemsRaw env myset) [] x hx (by simp)
    rw [build_earnings_next_7days, List.take_of_length_le hlen]
    exact h

/-- C7, witness: with only the two same-key NVDA rows in the feed, exactly
one survives (existence here; uniqueness from the pairwise part). -/
theorem earn_dedup_amended_witness :
    ∃ y ∈ build_earnings_next_7days envEarnOne MY_TICKERS,
      earnKey y = ("NVDA", "2026-10-14") := by
  have hmem : (EarnItem.mk "2026-10-14 BMO" "NVDA" "엔비디아"
      "실적 캘린더(Nasdaq)") ∈ earnItemsRaw envEarnOne MY_TICKERS := by decide
  have h := (earn_dedup_amended envEarnOne MY_TICKERS (by decide)).2 _ hmem
  have hk : earnKey (EarnItem.mk "2026-10-14 BMO" "NVDA" "엔비디아"
      "실적 캘린더(Nasdaq)") = ("NVDA", "2026-10-14") := by decide
  exact hk ▸ h

/-! ### Pipeline-level environments and lemmas -/

theorem except_isOk_exists {ε α} {e : Except ε α} (h : e.isOk = true) :
    ∃ a, e = .ok a := by
  cases e with
  | error err => simp [Except.isOk, Except.toBool] at h
  | ok a => exact ⟨a, rfl⟩

theorem exceptBindOk {ε α β} (a : α) (f : α → Except ε β) :
    ((Except.ok a : Except ε α) >>= f) = f a := rfl

theorem exceptPureEq {ε α} (a : α) : (pure a : Except ε α) = Except.ok a := rfl

theorem exceptIsOkOk {ε α} (a : α) :
    (Except.ok a : Except ε α).isOk = true := rfl

/-- An environment in which every Stooq request fails (e.g. a network
timeout on the very first S&P 500 fetch). -/
def envSpxFail : Env :=
  { stooq := fun _ => .error .network
    fred := .ok ["DATE,DGS10"]
    rssItems := fun _ => []
    earnRows := fun _ => .ok []
    fedEvents := []
    blsEvents := []
    updatedAt := ""
    dayISO := fun _ => "2026-10-13"
    dateNear := fun _ => false }

/-- An environment whose six index/macro Stooq responses and FRED response
succeed while every other source fails or is empty (per-ticker and sector
fetches fail, the earnings lookup fails, feeds and schedules are empty). -/
def envDegraded : Env :=
  { stooq := fun s =>
      if s = "^spx" ∨ s = "^ndq" ∨ s = "^dji" ∨ s = "vi.f" ∨ s = "dx.f"
          ∨ s = "cl.f" then
        .ok linesAscExample
      else .error .network
    fred := .ok ["DATE,DGS10", "2024-01-02,4.0", "2024-01-03,4.1"]
    rssItems := fun _ => []
    earnRows := fun _ => .error .network
    fedEvents := []
    blsEvents := []
    updatedAt := "2026-10-12 09:00 KST"
    dayISO := fun _ => "2026-10-13"
    dateNear := fun _ => false }

/-- C2, counterexample.  The index/VIX/macro fetches in `main`
(lines 330–333, 348–350) are *not* wrapped in `try/except`: a network
timeout on the S&P 500 fetch escapes the adapter, aborts the run, and no
section of the snapshot is populated — not even those whose sources were
healthy. -/
theorem adapter_error_escapes_counterexample :
    mainPipeline envSpxFail = .error .network
    ∧ runMain envSpxFail (some (JVal.s "previous"))
        = (some (JVal.s "previous"), .error .network) := ⟨rfl, rfl⟩

/-- C2, amended.  Only the per-ticker, sector, earnings, news and schedule
adapters are isolated: their failures degrade to empty values and never
abort the run.  The six index/macro Stooq fetches and the FRED fetch are
unwrapped; whenever those seven calls succeed, the pipeline produces a
snapshot no matter what every wrapped source does. -/
theorem adapter_isolation_amended (env : Env)
    (h1 : (fetch_stooq_close_series env "^spx" 35).isOk = true)
    (h2 : (fetch_stooq_close_series env "^ndq" 35).isOk = true)
    (h3 : (fetch_stooq_close_series env "^dji" 35).isOk = true)
    (h4 : (fetch_stooq_close_series env "vi.f" 35).isOk = true)
    (h5 : (fetch_fred_dgs10 env 35).isOk = true)
    (h6 : (fetch_stooq_close_series env "dx.f" 35).isOk = true)
    (h7 : (fetch_stooq_close_series env "cl.f" 35).isOk = true) :
    (mainPipeline env).isOk = true := by
  obtain ⟨⟨l1, c1⟩, e1⟩ := except_isOk_exists h1
  obtain ⟨⟨l2, c2⟩, e2⟩ := except_isOk_exists h2
  obtain ⟨⟨l3, c3⟩, e3⟩ := except_isOk_exists h3
  obtain ⟨⟨l4, c4⟩, e4⟩ := except_isOk_exists h4
  obtain ⟨⟨l5, c5⟩, e5⟩ := except_isOk_exists h5
  obtain ⟨⟨l6, c6⟩, e6⟩ := except_isOk_exists h6
  obtain ⟨⟨l7, c7⟩, e7⟩ := except_isOk_exists h7
  simp only [mainPipeline, e1, e2, e3, e4, e5, e6, e7, exceptBindOk,
    exceptPureEq, exceptIsOkOk]

/-- C2, witness for `adapter_isolation_amended`: in `envDegraded` all seven
unwrapped fetches succeed, everything else fails, and a snapshot is still
produced. -/
theorem adapter_isolation_amended_witness :
    (mainPipeline envDegraded).isOk = true :=
  adapter_isolation_amended envDegraded rfl rfl rfl rfl rfl rfl rfl

/-- C5.  `main` writes the artifact exactly once, as its final statement,
after the document is fully built and serialised: if the pipeline raises
anywhere before that write, the previous artifact is returned unchanged. -/
theorem atomic_write (env : Env) (fs : Option JVal) (e : SourceError)
    (h : mainPipeline env = .error e) :
    (runMain env fs).1 = fs ∧ (runMain env fs).2 = .error e := by
  simp [runMain, h]

/-- C5, witness: a run crashing on its first fetch leaves the previous
artifact exactly as it was. -/
theorem atomic_write_witness :
    (runMain envSpxFail (some (JVal.s "previous-artifact"))).1
      = some (JVal.s "previous-artifact") :=
  (atomic_write envSpxFail (some (JVal.s "previous-artifact")) .network rfl).1

/-- C9.  Every snapshot the program serialises carries all thirteen
top-level keys, whatever the section contents are — degraded sections are
empty arrays or `"-"` placeholders inside the values, never missing
keys. -/
theorem payload_keys_complete (p : Payload) :
    jsonKeys (payloadToJson p)
      = ["updatedAt", "oneLine", "mood", "action", "overnight", "schedule",
         "macro", "newsTop5", "earnings", "sectors", "myStocks", "risk",
         "todo3"] := rfl

end GenLatest
